import Mathlib

/-
Verification of the task-orchestration / incremental-update pipeline of the
webcrawlerAI repository, a shallow embedding in Lean 4 of:
  - src/webui/webui_manager.py            (component registry)
  - src/webui/components/vayner_client_research_tab.py
      (generate_live_report, step_callback, done_callback,
       handle_submit, handle_stop, update_queue)

Modeling conventions:
  - Python strings are Lean `String`; `str.lower()` is `pyLower`
    (ASCII-faithful, which covers every string the code compares);
    `x in s` (substring) is `containsSub`; `str.strip()` is `pyStrip`;
    `str.strip("|")` is `stripChar`; `str.split(sep)` is `splitOnChar` /
    `splitParagraphs` (structural implementations, so that terms evaluate
    inside the kernel).
  - Python dicts are association lists with Python's assignment semantics
    (`dictSet` updates an existing key in place, else appends; `dictGet`
    returns the value of the first matching key).
  - gradio `Component` objects are opaque handles, modeled as `Nat`.
  - The two regular expressions used by the callbacks are embedded as
    faithful backtracking matchers over `List Char` (greedy quantifiers,
    leftmost search, case-insensitive literals), specialised to the two
    fixed patterns appearing in the source.
-/

set_option maxHeartbeats 1000000
set_option maxRecDepth 100000

/-! ## Python string primitives -/

/-- Python `str.lower()` (ASCII range; agrees with CPython on every string
the embedded code compares). -/
def pyLower (s : String) : String := String.mk (s.data.map Char.toLower)

/-- Prefix test on character lists (helper for `containsSub`). -/
def isPrefixCl : List Char → List Char → Bool
  | [], _ => true
  | _ :: _, [] => false
  | a :: as, b :: bs => a == b && isPrefixCl as bs

/-- Scan helper for `containsSub`. -/
def containsCl (needle : List Char) : List Char → Bool
  | [] => isPrefixCl needle []
  | cs@(_ :: rest) => isPrefixCl needle cs || containsCl needle rest

/-- Python `needle in hay` substring membership. -/
def containsSub (hay needle : String) : Bool := containsCl needle.data hay.data

/-- Python `str.strip(c)` for a single strip character: removes all leading
and trailing occurrences of `c`. -/
def stripChar (c : Char) (s : String) : String :=
  let noHead := s.data.dropWhile (fun x => x == c)
  let noTail := (noHead.reverse.dropWhile (fun x => x == c)).reverse
  String.mk noTail

/-- Python `\s` for the ASCII range (space, tab, newline, carriage return,
vertical tab, form feed); also the set `str.strip()` removes. -/
def isPySpace (c : Char) : Bool :=
  c == ' ' || c == '\t' || c == '\n' || c == '\r' || c == '\x0b' || c == '\x0c'

/-- Python `str.strip()` with no argument: whitespace removed from both
ends. -/
def pyStrip (s : String) : String :=
  String.mk (((s.data.dropWhile isPySpace).reverse.dropWhile isPySpace).reverse)

/-- Split on a single-character separator (helper for `splitOnChar`). -/
def splitCl (c : Char) : List Char → List (List Char)
  | [] => [[]]
  | x :: rest =>
    if x == c then [] :: splitCl c rest
    else
      match splitCl c rest with
      | [] => [[x]]
      | g :: gs => (x :: g) :: gs

/-- Python `s.split(sep)` for the single-character separators (`"\n"`,
`"|"`) used by the embedded code. -/
def splitOnChar (c : Char) (s : String) : List String :=
  (splitCl c s.data).map String.mk

/-- Split on the two-character separator `"\n\n"` (helper for
`splitParagraphs`), with Python's leftmost non-overlapping semantics. -/
def splitNlNlCl : List Char → List (List Char)
  | [] => [[]]
  | '\n' :: '\n' :: rest => [] :: splitNlNlCl rest
  | x :: rest =>
    match splitNlNlCl rest with
    | [] => [[x]]
    | g :: gs => (x :: g) :: gs

/-- Python `s.split("\n\n")` (the paragraph split of the renderer). -/
def splitParagraphs (s : String) : List String :=
  (splitNlNlCl s.data).map String.mk

/-- Replace each newline by `"<br>"` (helper for `replaceNlBr`). -/
def replaceNlBrCl : List Char → List Char
  | [] => []
  | '\n' :: rest => '<' :: 'b' :: 'r' :: '>' :: replaceNlBrCl rest
  | x :: rest => x :: replaceNlBrCl rest

/-- Python `s.replace("\n", "<br>")` as used at line 440. -/
def replaceNlBr (s : String) : String := String.mk (replaceNlBrCl s.data)

/-- Python `s.startswith(pre)`. -/
def strStartsWith (s pre : String) : Bool := isPrefixCl pre.data s.data

/-! ## The two regular expressions of vayner_client_research_tab.py

`step_callback` (line 673) and `done_callback` (line 853) search for
  keyword[:\s]+([\w\- ]+)[,;\s]+performance[:\s]+([\w\-\.]+)[,;\s]+sov[:\s]+([\w\-\.]+)
with `re.IGNORECASE`; `done_callback` (line 833) prefix-matches
  \|?\s*keyword\s*\|\s*performance\s*\|\s*sov\s*\|?
with `re.IGNORECASE`. The matchers below implement exactly these patterns
with Python's greedy-backtracking semantics. -/

/-- Character class `\w` (ASCII view, as all inputs compared are ASCII). -/
def isWordChar (c : Char) : Bool := c.isAlphanum || c == '_'

/-- Character class `[\w\- ]` (group 1 of the row pattern). -/
def isKwChar (c : Char) : Bool := isWordChar c || c == '-' || c == ' '

/-- Character class `[\w\-\.]` (groups 2 and 3 of the row pattern). -/
def isValChar (c : Char) : Bool := isWordChar c || c == '-' || c == '.'

/-- Character class `[:\s]`. -/
def isColonSpace (c : Char) : Bool := c == ':' || isPySpace c

/-- Character class `[,;\s]`. -/
def isSepChar (c : Char) : Bool := c == ',' || c == ';' || isPySpace c

/-- Case-insensitive literal match; returns the rest of the input. -/
def matchLitCI : List Char → List Char → Option (List Char)
  | [], cs => some cs
  | _ :: _, [] => none
  | l :: ls, c :: cs => if l.toLower == c.toLower then matchLitCI ls cs else none

/-- Exact single-character match. -/
def matchChar (c : Char) : List Char → Option (List Char)
  | [] => none
  | x :: rest => if x == c then some rest else none

/-- First success of `f` over a list of alternatives (backtracking). -/
def firstSome {α β : Type} (l : List α) (f : α → Option β) : Option β :=
  match l with
  | [] => none
  | a :: as => match f a with
    | some b => some b
    | none => firstSome as f

/-- Alternatives for `c?` applied at `cs`, greedy-first. -/
def optCharRests (c : Char) (cs : List Char) : List (List Char) :=
  match cs with
  | x :: rest => if x == c then [rest, cs] else [cs]
  | [] => [cs]

/-- Alternatives for `p*` applied at `cs`: the rest of the input after
consuming k characters of the maximal run, for k = max, …, 0 (greedy-first). -/
def starRests (p : Char → Bool) (cs : List Char) : List (List Char) :=
  let n := (cs.takeWhile p).length
  (List.range (n + 1)).map (fun j => cs.drop (n - j))

/-- Alternatives for `p+` applied at `cs`: k = max, …, 1 (greedy-first);
empty when the run is empty. -/
def plusRests (p : Char → Bool) (cs : List Char) : List (List Char) :=
  let n := (cs.takeWhile p).length
  (List.range n).map (fun j => cs.drop (n - j))

/-- Alternatives for a capturing `(p+)` applied at `cs`: pairs of
(captured characters, rest), greedy-first. -/
def plusGroupSplits (p : Char → Bool) (cs : List Char) : List (List Char × List Char) :=
  let run := cs.takeWhile p
  (List.range run.length).map (fun j =>
    let k := run.length - j
    (run.take k, cs.drop k))

/-- Attempt the row pattern anchored at `cs`; on success returns the three
captured groups of the first (leftmost-greedy) match. -/
def rowRegexMatchAt (cs : List Char) : Option (String × String × String) :=
  (matchLitCI "keyword".data cs).bind fun r1 =>
  firstSome (plusRests isColonSpace r1) fun r2 =>
  firstSome (plusGroupSplits isKwChar r2) fun g1 =>
  firstSome (plusRests isSepChar g1.2) fun r3 =>
  (matchLitCI "performance".data r3).bind fun r4 =>
  firstSome (plusRests isColonSpace r4) fun r5 =>
  firstSome (plusGroupSplits isValChar r5) fun g2 =>
  firstSome (plusRests isSepChar g2.2) fun r6 =>
  (matchLitCI "sov".data r6).bind fun r7 =>
  firstSome (plusRests isColonSpace r7) fun r8 =>
  firstSome (plusGroupSplits isValChar r8) fun g3 =>
  some (String.mk g1.1, String.mk g2.1, String.mk g3.1)

/-- Helper for `rowRegexSearch`: try each start position left to right. -/
def rowRegexSearchCl : List Char → Option (String × String × String)
  | [] => none
  | cs@(_ :: rest) =>
    match rowRegexMatchAt cs with
    | some g => some g
    | none => rowRegexSearchCl rest

/-- `re.search` of the row pattern
`keyword[:\s]+([\w\- ]+)[,;\s]+performance[:\s]+([\w\-\.]+)[,;\s]+sov[:\s]+([\w\-\.]+)`
(IGNORECASE) over `s`. -/
def rowRegexSearch (s : String) : Option (String × String × String) :=
  rowRegexSearchCl s.data

/-- `re.match` (prefix match) of the header pattern
`\|?\s*keyword\s*\|\s*performance\s*\|\s*sov\s*\|?` (IGNORECASE). -/
def headerRegexAccept (s : String) : Bool :=
  (firstSome (optCharRests '|' s.data) fun r0 =>
   firstSome (starRests isPySpace r0) fun r1 =>
   (matchLitCI "keyword".data r1).bind fun r2 =>
   firstSome (starRests isPySpace r2) fun r3 =>
   (matchChar '|' r3).bind fun r4 =>
   firstSome (starRests isPySpace r4) fun r5 =>
   (matchLitCI "performance".data r5).bind fun r6 =>
   firstSome (starRests isPySpace r6) fun r7 =>
   (matchChar '|' r7).bind fun r8 =>
   firstSome (starRests isPySpace r8) fun r9 =>
   (matchLitCI "sov".data r9).bind fun r10 =>
   firstSome (starRests isPySpace r10) fun r11 =>
   firstSome (optCharRests '|' r11) fun _ =>
   some ()).isSome

/-! ## KeywordRow and the shared dedup insertion

Every insertion site (step_callback lines 679-684; done_callback lines
845-850, 858-863, 871-876) runs the same check
`if not any(row["keyword"].lower() == keyword.lower() for row in rows)`
before appending, so it is factored into one definition. -/

/-- One row of the keyword performance table:
`{"keyword": ..., "performance": ..., "sov": ...}`. -/
structure KeywordRow where
  keyword : String
  performance : String
  sov : String
deriving DecidableEq

/-- The dedup-guarded append used by every KeywordRow insertion site:
append `r` unless a row with the same case-insensitive keyword exists. -/
def addKeywordRow (rows : List KeywordRow) (r : KeywordRow) : List KeywordRow :=
  if rows.any (fun row => pyLower row.keyword == pyLower r.keyword) then rows
  else rows ++ [r]

/-- Boolean uniqueness-by-case-insensitive-keyword invariant of a row list. -/
def uniqueRowsB : List KeywordRow → Bool
  | [] => true
  | r :: rest =>
    !(rest.any (fun x => pyLower x.keyword == pyLower r.keyword)) && uniqueRowsB rest

/-! ## Component Registry (webui_manager.py lines 105-130) -/

/-- Opaque model of a gradio `Component` object. -/
abbrev Handle := Nat

/-- Python dict assignment `m[k] = v`: update an existing key in place,
else append (insertion order preserved, as in CPython dicts). -/
def dictSet {α β : Type} [DecidableEq α] (m : List (α × β)) (k : α) (v : β) :
    List (α × β) :=
  if m.any (fun p => p.1 = k) then m.map (fun p => if p.1 = k then (k, v) else p)
  else m ++ [(k, v)]

/-- Python dict lookup `m.get(k)` / `m[k]` as an Option. -/
def dictGet {α β : Type} [DecidableEq α] (m : List (α × β)) (k : α) : Option β :=
  match m with
  | [] => none
  | p :: t => if p.1 = k then some p.2 else dictGet t k

/-- The two registry dicts of `WebuiManager.__init__`:
`id_to_component` and `component_to_id`. -/
structure Registry where
  id_to_component : List (String × Handle)
  component_to_id : List (Handle × String)
deriving DecidableEq

/-- Fresh registry (`WebuiManager.__init__`). -/
def emptyRegistry : Registry := ⟨[], []⟩

/-- One iteration of the `add_components` loop: store
`comp_id → component` and `component → comp_id`. -/
def addComponentPair (r : Registry) (p : String × Handle) : Registry :=
  { id_to_component := dictSet r.id_to_component p.1 p.2
    component_to_id := dictSet r.component_to_id p.2 p.1 }

/-- `WebuiManager.add_components(tab_name, components_dict)` (lines 105-112):
for each `(comp_name, component)` store `f"{tab_name}.{comp_name}"` in both
dicts. There is no existence check and no exception. -/
def add_components (r : Registry) (tab_name : String)
    (components_dict : List (String × Handle)) : Registry :=
  components_dict.foldl
    (fun acc c => addComponentPair acc (tab_name ++ "." ++ c.1, c.2)) r

/-- `WebuiManager.get_component_by_id` (lines 120-124): dict `.get`,
returns None when absent. -/
def get_component_by_id (r : Registry) (comp_id : String) : Option Handle :=
  dictGet r.id_to_component comp_id

/-- `WebuiManager.get_id_by_component` (lines 126-130): dict indexing;
`none` models the KeyError raised for an unregistered handle. -/
def get_id_by_component (r : Registry) (comp : Handle) : Option String :=
  dictGet r.component_to_id comp

/-- A sequence of `add_components` calls applied to a fresh registry. -/
def applyOps (ops : List (String × List (String × Handle))) : Registry :=
  ops.foldl (fun r op => add_components r op.1 op.2) emptyRegistry

/-- The composed `(f"{tab}.{name}", handle)` pairs a sequence of
`add_components` calls stores, in order. -/
def pairsOfOps : List (String × List (String × Handle)) → List (String × Handle)
  | [] => []
  | op :: rest => op.2.map (fun c => (op.1 ++ "." ++ c.1, c.2)) ++ pairsOfOps rest

/-! ## Python values reaching the report renderer

`history.final_result()` may be a string, a list, a dict, or something else;
`generate_live_report` branches on `isinstance`. List elements are displayed
via f-string interpolation and, in `done_callback`, inspected as dicts, so a
list item is modeled by its display string plus its optional dict view. -/

/-- An element of a list-valued final result. -/
structure PyListItem where
  display : String
  asDict : Option (List (String × String))
deriving DecidableEq

/-- A Python value as the embedded code discriminates it. -/
inductive PyValue where
  | pstr (s : String)
  | plist (items : List PyListItem)
  | pdict (entries : List (String × String))
  | pyother (repr : String)
deriving DecidableEq

/-- Python truthiness of a final-result value (`if final_result:`):
empty string, empty list and empty dict are falsy; other objects truthy. -/
def pyTruthy : PyValue → Bool
  | .pstr s => s != ""
  | .plist items => !items.isEmpty
  | .pdict entries => !entries.isEmpty
  | .pyother _ => true

/-- `none` models Python `None` (falsy). -/
def pyTruthyOpt : Option PyValue → Bool
  | none => false
  | some v => pyTruthy v

/-! ## generate_live_report (vayner_client_research_tab.py lines 304-496)

The fixed HTML fragments below are transcribed verbatim from the source
f-strings (apostrophes written `\x27`, non-ASCII glyphs as unicode escapes). -/

/-- Cover page (lines 312-338), with `business_name` interpolated. -/
def coverPage (business_name : String) : String :=
  "\n    <div style=\"width:100%; min-height:400px; background:#000; color:#fff; display:flex; flex-direction:column; align-items:center; justify-content:center; padding:60px 0 40px 0;\">\n        <div style=\"width:70%; max-width:500px; margin-bottom:30px;\">\n            <div style=\"text-align:center; margin-bottom:20px;\">\n                <svg width=\"120\" height=\"80\" viewBox=\"0 0 120 80\" fill=\"none\" xmlns=\"http://www.w3.org/2000/svg\">\n                    <path d=\"M60 15C70 15 80 25 90 30C100 35 110 30 115 25C110 40 100 50 80 50C60 50 40 40 30 30C40 35 50 15 60 15Z\" fill=\"white\"/>\n                    <path d=\"M70 15C65 20 60 18 55 15\" stroke=\"white\" stroke-width=\"2\"/>\n                    <path d=\"M75 12C70 17 65 15 60 12\" stroke=\"white\" stroke-width=\"2\"/>\n                </svg>\n            </div>\n            <div style=\"font-size:2.7rem; font-weight:600; letter-spacing:2px; text-align:center; line-height:1.1; text-transform:uppercase; font-family: \x27Montserrat\x27, Arial, sans-serif;\">\n                "
  ++ business_name ++
  "\n            </div>\n            <div style=\"font-size:1.2rem; text-align:center; letter-spacing:1px; margin-top:5px; text-transform:uppercase; font-family: \x27Montserrat\x27, Arial, sans-serif;\">\n               \n            </div>\n        </div>\n        \n        <div style=\"font-size:2.5rem; font-weight:600; margin: 30px 0; text-align:center;\">X</div>\n        \n        <div style=\"width:70%; max-width:500px;\">\n            <div style=\"font-size:2.1rem; font-weight:700; letter-spacing:2px; text-align:center; text-transform:uppercase; font-family: \x27Montserrat\x27, Arial, sans-serif;\">\n                <div style=\"display:inline-block; margin-right:10px; vertical-align:middle;\">‚óÜ</div> VAYNERCOMMERCE\n            </div>\n        </div>\n    </div>\n    "

/-- Second page (lines 340-364), with `business_name` interpolated. -/
def secondPage (business_name : String) : String :=
  "\n    <div style=\"width:100%; min-height:400px; background:#fff; color:#222; display:flex; flex-direction:row; align-items:stretch; padding:0;\">\n        <div style=\"flex:1; display:flex; flex-direction:column; align-items:center; justify-content:center; padding:40px 20px; border-right:1px solid #eee;\">\n            <div style=\"width:240px; margin-bottom:20px;\">\n                <svg viewBox=\"0 0 240 140\" width=\"240\" height=\"140\" xmlns=\"http://www.w3.org/2000/svg\">\n                    <path d=\"M120 30C140 30 160 50 180 60C200 70 220 60 230 50C220 80 200 100 160 100C120 100 80 80 60 60C80 70 100 30 120 30Z\" fill=\"#4A8FBA\"/>\n                    <path d=\"M140 30C130 40 120 36 110 30\" stroke=\"#4A8FBA\" stroke-width=\"2\"/>\n                    <path d=\"M150 24C140 34 130 30 120 24\" stroke=\"#4A8FBA\" stroke-width=\"2\"/>\n                    <ellipse cx=\"140\" cy=\"70\" rx=\"100\" ry=\"15\" fill=\"#E3B151\" opacity=\"0.3\"/>\n                </svg>\n            </div>\n            <div style=\"font-size:2.2rem; font-weight:600; color:#4A8FBA; margin-bottom:10px; font-family: \x27Montserrat\x27, Arial, sans-serif; text-transform:uppercase; letter-spacing:1px; text-align:center; line-height:1.1;\">\n                "
  ++ business_name ++
  "<br>\n                <span style=\"font-size:1.1rem; color:#666; text-transform:uppercase; letter-spacing:1px;\">BEHAVIORAL HEALTH</span>\n            </div>\n            <div style=\"font-size:1.1rem; color:#666; margin:20px 0; text-align:center;\">SEO Services</div>\n            <div style=\"font-size:1rem; color:#444; text-align:center;\">Weeks of <span style=\"font-weight:600;\">04/07/25 - 04/21/25</span></div>\n            <div style=\"margin-top:60px; font-size:0.9rem; color:#bbb; font-family: \x27Montserrat\x27, Arial, sans-serif;\">\n                <span style=\"display:inline-block; margin-right:5px; vertical-align:middle;\">‚óÜ</span> VAYNERCOMMERCE\n            </div>\n        </div>\n        <div style=\"flex:1; min-height:400px; background-image:url(\x27https://images.unsplash.com/photo-1577563908411-5077b6dc7624?auto=format&fit=crop&w=700&q=80\x27); background-size:cover; background-position:center;\">\n        </div>\n    </div>\n    "

/-- Opening of the third page (lines 366-370): outer div, title, inner div
left open (closed by the trailing `</div></div>` of the function). -/
def page3Open : String :=
  "\n    <div style=\"width:100%; min-height:600px; background:#000; color:#fff; display:flex; flex-direction:column; align-items:center; justify-content:flex-start; padding:40px 0 40px 0; border-bottom:2px solid #222;\">\n        <div style=\"font-size:1.8rem; font-weight:600; color:#fff; margin-bottom:10px; font-family: \x27Montserrat\x27, Arial, sans-serif;\">Final Research Results</div>\n        <div style=\"width:90%; max-width:900px; margin-bottom:40px;\">\n    "

/-- Placeholder shown when `final_result` is falsy (lines 460-464). -/
def noResultPlaceholder : String :=
  "\n        <div style=\"width:90%; background-color:#111; color:#fff; padding:20px; border-radius:4px; text-align:center; margin:20px 0;\">\n            <p style=\"color:#bbb; font-style:italic;\">Results will appear here when the task is completed.</p>\n        </div>\n        "

/-- Table-likeness test for a string final result (lines 376-379). -/
def strIsTable (s : String) : Bool :=
  let lines := splitOnChar '\n' (pyStrip s)
  lines.any (fun line => containsSub line "|")
  || lines.any (fun line =>
       containsSub (pyLower line) "keyword" && containsSub (pyLower line) "performance")

/-- Non-empty stripped lines, as built at line 387 of the renderer
(`[line.strip() for line in final_result.split('\n') if line.strip()]`)
and at line 830 of done_callback (`splitlines()` with the same filter;
the two coincide on newline-separated text). -/
def stripNonEmptyLines (s : String) : List String :=
  (splitOnChar '\n' s).filterMap (fun line =>
    if pyStrip line == "" then none else some (pyStrip line))

/-- Index of the first line satisfying `p` (the `enumerate`/`break` loops at
lines 390-394 and 832-835). -/
def firstIdxWhere (p : String → Bool) : List String → Option Nat
  | [] => none
  | line :: rest => if p line then some 0 else (firstIdxWhere p rest).map (· + 1)

/-- Header-line test of the renderer (line 392): substring membership, not
the regex used by done_callback. -/
def reportHeaderLine (line : String) : Bool :=
  (containsSub (pyLower line) "keyword" && containsSub (pyLower line) "performance")
  || (containsSub (pyLower line) "keyword" && containsSub (pyLower line) "sov")

/-- One `<th>` cell (line 405). -/
def thCellHtml (cell : String) : String :=
  "<th style=\"padding:12px 15px; text-align:left; border-bottom:2px solid #444;\">" ++ cell ++ "</th>"

/-- One `<td>` cell (line 419). -/
def tdCellHtml (cell : String) : String :=
  "<td style=\"padding:10px 15px; border-bottom:1px solid #333;\">" ++ cell ++ "</td>"

/-- One data row of the rendered result table (lines 412-420); rows without a
pipe contribute nothing; the background alternates on the absolute index. -/
def dataRowHtml (idx : Nat) (row : String) : String :=
  if containsSub row "|" then
    let cells := (splitOnChar '|' (stripChar '|' row)).map pyStrip
    let bg := if idx % 2 == 0 then "#111" else "#181818"
    "<tr style=\"background-color:" ++ bg ++ "; color:#fff;\">"
    ++ cells.foldl (fun h c => h ++ tdCellHtml c) "" ++ "</tr>"
  else ""

/-- Verbatim `<pre>` fallback (lines 425 and 430). -/
def rawPreHtml (s : String) : String :=
  "<pre style=\"width:100%; background-color:#111; color:#fff; padding:15px; border-radius:4px; white-space:pre-wrap; overflow-x:auto;\">" ++ s ++ "</pre>"

/-- The tabular rendering of a string final result (lines 384-427): find the
header by substring test, skip one separator line when the next line holds
`---`, then render the remaining pipe lines. -/
def tableBlockHtml (final_result : String) : String :=
  let lines := stripNonEmptyLines final_result
  let inner :=
    match firstIdxWhere reportHeaderLine lines with
    | none => rawPreHtml final_result
    | some i =>
      let header := lines.getD i ""
      let headerCells := (splitOnChar '|' (stripChar '|' header)).map pyStrip
      let dataStart :=
        if i + 1 < lines.length && containsSub (lines.getD (i + 1) "") "---"
        then i + 2 else i + 1
      "<table style=\"width:100%; border-collapse:collapse; font-family:Arial, sans-serif; background:#000; color:#fff;\">"
      ++ "<thead><tr style=\"background-color:#222; color:#fff;\">"
      ++ headerCells.foldl (fun h c => h ++ thCellHtml c) ""
      ++ "</tr></thead><tbody>"
      ++ (lines.drop dataStart).enum.foldl
           (fun h p => h ++ dataRowHtml (dataStart + p.1) p.2) ""
      ++ "</tbody></table>"
  "<div style=\"width:100%; overflow-x:auto; margin:20px 0; border-radius:4px; box-shadow:0 2px 10px rgba(0,0,0,0.1);\">"
  ++ inner ++ "</div>"

/-- Opening of the non-tabular result block (line 433). -/
def nonTableOpenHtml : String :=
  "<div style=\"width:100%; background-color:#111; color:#fff; padding:20px; border-radius:4px; border-left:4px solid #4A8FBA; margin:20px 0;\">"

/-- One paragraph (lines 438-441): newlines become `<br>`. -/
def paragraphHtml (p : String) : String :=
  "<p style=\"margin-bottom:15px; line-height:1.5;\">" ++ replaceNlBr p ++ "</p>"

/-- Paragraph rendering of a plain-text result (lines 437-441). -/
def paragraphsHtml (s : String) : String :=
  (splitParagraphs s).foldl
    (fun h p => if pyStrip p == "" then h else h ++ paragraphHtml p) ""

/-- List rendering (lines 442-447). -/
def listItemsHtml (items : List PyListItem) : String :=
  "<ul style=\"margin-left:20px; line-height:1.5;\">"
  ++ items.foldl (fun h it =>
       h ++ "<li style=\"margin-bottom:8px;\">" ++ it.display ++ "</li>") ""
  ++ "</ul>"

/-- Dict rendering (lines 448-453). -/
def dictEntriesHtml (entries : List (String × String)) : String :=
  "<div style=\"line-height:1.5;\">"
  ++ entries.foldl (fun h kv =>
       h ++ "<div style=\"margin-bottom:10px;\"><strong>" ++ kv.1 ++ ":</strong> " ++ kv.2 ++ "</div>") ""
  ++ "</div>"

/-- The final-result section of the report (lines 372-464). -/
def finalResultSection (final_result : Option PyValue) : String :=
  match final_result with
  | none => noResultPlaceholder
  | some v =>
    if pyTruthy v = false then noResultPlaceholder
    else
      match v with
      | .pstr s =>
        if strIsTable s then tableBlockHtml s
        else nonTableOpenHtml ++ paragraphsHtml s ++ "</div>"
      | .plist items => nonTableOpenHtml ++ listItemsHtml items ++ "</div>"
      | .pdict entries => nonTableOpenHtml ++ dictEntriesHtml entries ++ "</div>"
      | .pyother r =>
        nonTableOpenHtml ++ "<p style=\"line-height:1.5;\">" ++ r ++ "</p>" ++ "</div>"

/-- Keyword table opening (lines 468-480). -/
def kwTableOpen : String :=
  "\n        <div style=\"width:90%; max-width:800px; margin-top:30px;\">\n            <div style=\"font-size:1.4rem; font-weight:600; color:#fff; margin-bottom:15px; font-family: \x27Montserrat\x27, Arial, sans-serif;\">Keyword Performance Summary</div>\n            <table style=\"width:100%; border-collapse:collapse; background:#000; color:#fff;\">\n                <thead>\n                    <tr style=\"background-color:#222; color:#fff;\">\n                        <th style=\"padding:10px; border:1px solid #333; text-align:left;\">Keyword</th>\n                        <th style=\"padding:10px; border:1px solid #333; text-align:left;\">Performance</th>\n                        <th style=\"padding:10px; border:1px solid #333; text-align:left;\">SOV</th>\n                    </tr>\n                </thead>\n                <tbody>\n        "

/-- One keyword table row (lines 483-487), fields interpolated verbatim. -/
def keywordRowHtml (row : KeywordRow) : String :=
  "<tr style=\"background-color:#111; color:#fff;\">\n                <td style=\"padding:10px; border:1px solid #333;\">"
  ++ row.keyword ++
  "</td>\n                <td style=\"padding:10px; border:1px solid #333;\">"
  ++ row.performance ++
  "</td>\n                <td style=\"padding:10px; border:1px solid #333;\">"
  ++ row.sov ++
  "</td>\n            </tr>"

/-- Keyword table closing (lines 489-493). -/
def kwTableClose : String :=
  "\n                </tbody>\n            </table>\n        </div>\n        "

/-- The keyword table section (lines 466-493): rendered only for a truthy
(non-empty) row list; one verbatim row per KeywordRow, in insertion order.
No Average row is computed anywhere in this function. -/
def keywordTableSection (keyword_table_rows : List KeywordRow) : String :=
  if keyword_table_rows.isEmpty then ""
  else
    kwTableOpen
    ++ keyword_table_rows.foldl (fun h row => h ++ keywordRowHtml row) ""
    ++ kwTableClose

/-- `generate_live_report` (lines 304-496). The parameters `business_info`,
`keyword_data`, `ranking_data` and `screenshots` are bound by the source but
never read in its body; they are kept here to mirror the signature. -/
def generate_live_report (business_name : String)
    (business_info keyword_data ranking_data screenshots : List String)
    (keyword_table_rows : Option (List KeywordRow) := none)
    (final_result : Option PyValue := none) : String :=
  let rows := match keyword_table_rows with
    | none => []
    | some r => r
  coverPage business_name
  ++ secondPage business_name
  ++ page3Open
  ++ finalResultSection final_result
  ++ keywordTableSection rows
  ++ "</div></div>"

/-! ## done_callback keyword extraction (lines 814-902)

Only the keyword-row extraction and report regeneration are embedded; the
chat-transcript summary strings are orthogonal to every claim. -/

/-- One data row of the final-result table pass (lines 838-850): rows not
starting with `|` are skipped; `strip("|")`, split on `|`, strip cells; with
at least three non-empty cells the first three become a candidate row. -/
def tableRowStep (rows : List KeywordRow) (row : String) : List KeywordRow :=
  if strStartsWith row "|" = false then rows
  else
    match (splitOnChar '|' (stripChar '|' row)).map pyStrip with
    | k :: p :: sv :: _ =>
      if k ≠ "" ∧ p ≠ "" ∧ sv ≠ "" then addKeywordRow rows ⟨k, p, sv⟩ else rows
    | _ => rows

/-- The tabular pass of done_callback (lines 829-850): find the first line
prefix-matching the header regex; when at least two further lines exist,
treat the line right after the header as the separator (it is skipped
unconditionally, `lines[table_start+2:]`) and run `tableRowStep` on the
rest; otherwise extract nothing. -/
def parseFinalResultTable (lines : List String) (rows : List KeywordRow) :
    List KeywordRow :=
  match firstIdxWhere headerRegexAccept lines with
  | none => rows
  | some i =>
    if i + 2 < lines.length then (lines.drop (i + 2)).foldl tableRowStep rows
    else rows

/-- The per-line row-pattern pass of done_callback (lines 852-863). -/
def lineRowStep (rows : List KeywordRow) (line : String) : List KeywordRow :=
  match rowRegexSearch line with
  | some (k, p, sv) => addKeywordRow rows ⟨pyStrip k, pyStrip p, pyStrip sv⟩
  | none => rows

/-- The list-of-dicts pass of done_callback (lines 864-876). -/
def listItemRowStep (rows : List KeywordRow) (item : PyListItem) : List KeywordRow :=
  match item.asDict with
  | some entries =>
    match dictGet entries "keyword", dictGet entries "performance",
          dictGet entries "sov" with
    | some k, some p, some sv =>
      if k ≠ "" ∧ p ≠ "" ∧ sv ≠ "" then addKeywordRow rows ⟨k, p, sv⟩ else rows
    | _, _, _ => rows
  | none => rows

/-- The complete keyword-row extraction of done_callback over the task's
final result (lines 820-876): for a truthy string result, the tabular pass
then the line pass; for a list result, the dict pass; nothing otherwise. -/
def done_callback_rows (final_result : Option PyValue)
    (rows : List KeywordRow) : List KeywordRow :=
  match final_result with
  | none => rows
  | some v =>
    if pyTruthy v = false then rows
    else
      match v with
      | .pstr s =>
        let lines := stripNonEmptyLines s
        lines.foldl lineRowStep (parseFinalResultTable lines rows)
      | .plist items => items.foldl listItemRowStep rows
      | _ => rows

/-! ## Session state (WebuiManager vayner fields + update queue)

The WebuiManager object carries the registry dicts and the per-session
vayner fields (`init_vayner_client_research`, webui_manager.py lines 47-94).
The chat transcript only accumulates rendered log HTML and is not referenced
by any claim, so it is not carried here. -/

/-- A `gr.update(...)` payload: only the fields the embedded code sets. -/
structure GrUpdate where
  value : Option String := none
  visible : Option Bool := none
  interactive : Option Bool := none
deriving DecidableEq

/-- One pending UI update pushed to `webui_manager.update_queue`
(a single-entry dict `{component: gr.update(...)}`). -/
structure UpdateFragment where
  comp : Handle
  upd : GrUpdate
deriving DecidableEq

/-- The background `asyncio.Task` handle, reduced to its `done()` flag. -/
structure TaskHandle where
  taskDone : Bool
deriving DecidableEq

/-- The WebuiManager state the embedded handlers read and write. -/
structure ManagerState where
  registry : Registry
  vayner_current_business : String
  vayner_screenshots : List String
  vayner_business_info : List String
  vayner_keyword_data : List String
  vayner_ranking_data : List String
  vayner_keyword_table_rows : List KeywordRow
  vayner_pdf_report : Option String
  update_queue : List UpdateFragment
  vayner_agent : Option Unit
  vayner_current_task : Option TaskHandle
deriving DecidableEq

/-- Whether the session currently holds a live (not yet done) task. -/
def taskIsRunning (s : ManagerState) : Bool :=
  match s.vayner_current_task with
  | some t => !t.taskDone
  | none => false

/-! ## step_callback (lines 589-812) -/

/-- `if x not in l: l.append(x)` — exact-string membership guard used by all
note buckets. -/
def appendUnique (l : List String) (x : String) : List String :=
  if l.contains x then l else l ++ [x]

/-- Screenshot handling (lines 593-603): store strings longer than 100
characters. -/
def screenshotStep (s : ManagerState) (screenshot : Option String) : ManagerState :=
  match screenshot with
  | some sc =>
    if sc.length > 100 then
      { s with vayner_screenshots := s.vayner_screenshots ++ [sc] }
    else s
  | none => s

/-- Bucket classification of one action thought (lines 616-632). -/
def thoughtFactStep (s : ManagerState) (th : String) : ManagerState :=
  let t := pyLower th
  let s1 :=
    if containsSub t "business"
       && (containsSub t "name" || containsSub t "address" || containsSub t "info"
           || containsSub t "details" || containsSub t "about") then
      { s with vayner_business_info := appendUnique s.vayner_business_info th }
    else s
  let s2 :=
    if containsSub t "keyword"
       && (containsSub t "performance" || containsSub t "score" || containsSub t "data") then
      { s1 with vayner_keyword_data := appendUnique s1.vayner_keyword_data th }
    else s1
  if containsSub t "ranking" || containsSub t "rank" || containsSub t "geography"
     || containsSub t "location" then
    { s2 with vayner_ranking_data := appendUnique s2.vayner_ranking_data th }
  else s2

/-- Bucket classification of one action result string (lines 634-649). -/
def resultFactStep (s : ManagerState) (r : String) : ManagerState :=
  let rl := pyLower r
  let s1 :=
    if containsSub rl "business" && r.length > 10 then
      { s with vayner_business_info := appendUnique s.vayner_business_info r }
    else s
  let s2 :=
    if containsSub rl "keyword" && r.length > 10 then
      { s1 with vayner_keyword_data := appendUnique s1.vayner_keyword_data r }
    else s1
  if containsSub rl "rank" && r.length > 10 then
    { s2 with vayner_ranking_data := appendUnique s2.vayner_ranking_data r }
  else s2

/-- One action of the fact-extraction loop (lines 615-649): truthiness of
`action.thought` / `action.result` gates each part. -/
structure AgentAction where
  thought : Option String
  result : Option String
deriving DecidableEq

/-- The `output.action` list handed to the step callback. -/
structure AgentOutput where
  action : List AgentAction
deriving DecidableEq

/-- The browser state handed to the step callback (screenshot, url,
text_content attributes). -/
structure AgentStepState where
  screenshot : Option String
  url : Option String
  text_content : Option String
deriving DecidableEq

/-- The `if hasattr(action, "thought") and action.thought:` gate
(line 616). -/
def thoughtPartStep (s : ManagerState) (th : Option String) : ManagerState :=
  match th with
  | some t => if t == "" then s else thoughtFactStep s t
  | none => s

/-- The `if hasattr(action, "result") and action.result and isinstance(...)`
gate (line 635). -/
def resultPartStep (s : ManagerState) (r : Option String) : ManagerState :=
  match r with
  | some t => if t == "" then s else resultFactStep s t
  | none => s

/-- Fact extraction for one action (lines 615-649): the thought block, then
the result block. -/
def actionFactStep (s : ManagerState) (a : AgentAction) : ManagerState :=
  resultPartStep (thoughtPartStep s a.thought) a.result

/-- Page-URL extraction (lines 651-655): append `"Page URL: <url>"` unless
the url already occurs inside some stored business-info note. -/
def urlFactStep (s : ManagerState) (url : Option String) : ManagerState :=
  match url with
  | some u =>
    if u == "" then s
    else if containsSub (pyLower u) "business"
            && !(s.vayner_business_info.any (fun info => containsSub info u)) then
      { s with vayner_business_info := s.vayner_business_info ++ ["Page URL: " ++ u] }
    else s
  | none => s

/-- Visible-text extraction (lines 657-662). -/
def textContentFactStep (s : ManagerState) (tc : Option String) : ManagerState :=
  match tc with
  | some t =>
    if t == "" then s
    else if containsSub (pyLower t) "keyword" && t.length > 20 then
      { s with vayner_keyword_data := appendUnique s.vayner_keyword_data t }
    else s
  | none => s

/-- Row-pattern extraction from one field (lines 669-684). -/
def fieldRowStep (rows : List KeywordRow) (field : Option String) : List KeywordRow :=
  match field with
  | some f =>
    if f == "" then rows
    else
      match rowRegexSearch f with
      | some (k, p, sv) => addKeywordRow rows ⟨pyStrip k, pyStrip p, pyStrip sv⟩
      | none => rows
  | none => rows

/-- Row-pattern extraction for one action, thought then result (line 669). -/
def actionRowStep (rows : List KeywordRow) (a : AgentAction) : List KeywordRow :=
  fieldRowStep (fieldRowStep rows a.thought) a.result

/-- The aggregation part of step_callback (lines 593-684), in source order:
screenshot, per-action buckets, page URL, visible text, keyword-row
extraction. -/
def stepAggregate (s : ManagerState) (st : AgentStepState) (out : AgentOutput) :
    ManagerState :=
  let s1 := screenshotStep s st.screenshot
  let s2 := out.action.foldl actionFactStep s1
  let s3 := urlFactStep s2 st.url
  let s4 := textContentFactStep s3 st.text_content
  { s4 with vayner_keyword_table_rows := out.action.foldl actionRowStep s4.vayner_keyword_table_rows }

/-- The value a name bound in step_callback's scope chain could carry; for
this analysis only a binding named `history` (an agent-history object with a
`final_result()` method) is distinguished. -/
inductive ScopeVal where
  | historyVal (final_result : Option PyValue)
  | otherVal
deriving DecidableEq

/-- The names visible inside `step_callback` (its own locals and parameters,
the locals of the enclosing `run_vayner_research`, and the module globals of
vayner_client_research_tab.py). `history` is not among them: it occurs in
the file only as the parameter of `done_callback` (line 814) and of
`generate_pdf_report` (line 83), neither of which encloses `step_callback`. -/
def stepCallbackVisibleNames : List String :=
  [ -- step_callback parameters and locals
    "state", "output", "step_num", "screenshot_data", "action", "field", "re",
    "keyword", "performance", "sov", "business_name", "pdf_report_comp", "e",
    "log_html", "actions_text", "has_content", "action_dump", "state_dump",
    "thought", "text", "details", "icon", "action_type", "page_url",
    -- run_vayner_research locals (the enclosing closure)
    "webui_manager", "components", "run_button_comp", "stop_button_comp",
    "chatbot_comp", "browser_view_comp", "task", "get_setting",
    "llm_provider_name", "llm_model_name", "llm_temperature", "use_vision",
    "llm_base_url", "llm_api_key", "get_browser_setting", "headless",
    "disable_security", "window_w", "window_h", "save_recording_path",
    "save_download_path", "stream_vw", "stream_vh", "main_llm",
    "step_callback", "done_callback", "context_config", "agent_run_coro",
    "agent_task", "last_chat_len", "screenshot_b64", "html_content",
    "error_message",
    -- module globals
    "asyncio", "json", "logging", "os", "Any", "AsyncGenerator", "Dict",
    "List", "Optional", "datetime", "gr", "Component", "BrowserUseAgent",
    "CustomBrowser", "CustomController", "llm_provider", "WebuiManager",
    "BrowserConfig", "BrowserContext", "BrowserContextConfig", "logger",
    "load_dotenv", "VAYNER_USERNAME", "VAYNER_PASSWORD",
    "VAYNER_CLIENT_TEMPLATE", "generate_pdf_report", "generate_live_report",
    "run_vayner_research", "handle_submit", "handle_stop", "handle_clear",
    "create_vayner_client_research_tab" ]

/-- The report-update block of step_callback (lines 686-706). The call at
lines 688-696 evaluates its arguments left to right; the last argument is
`history.final_result()`, so the free name `history` is resolved first.
When the scope chain has no such binding Python raises NameError there —
before `generate_live_report` runs, before `vayner_pdf_report` is assigned
and before the queue push at line 701 — and the `except Exception` at line
708 catches and logs it, leaving the state unchanged. When a binding does
exist the block regenerates the report and, if the pdf_report slot resolves,
pushes the fragment `{pdf_report_comp: gr.update(value=report, visible=True)}`. -/
def stepReportBlock (env : List (String × ScopeVal)) (s : ManagerState) :
    ManagerState :=
  match dictGet env "history" with
  | none => s
  | some .otherVal => s
  | some (.historyVal fr) =>
    let report := generate_live_report s.vayner_current_business
      s.vayner_business_info s.vayner_keyword_data s.vayner_ranking_data
      s.vayner_screenshots (some s.vayner_keyword_table_rows) fr
    let s1 := { s with vayner_pdf_report := some report }
    match get_component_by_id s1.registry "vayner_client_research.pdf_report" with
    | some comp =>
      { s1 with update_queue := s1.update_queue ++
          [⟨comp, { value := some report, visible := some true }⟩] }
    | none => s1

/-- `step_callback` (lines 589-812): aggregation, then the report-update
block; `env` carries whatever values the names in its scope chain are bound
to. The trailing chat-log append (lines 711-812) only grows the transcript
and is not part of this state. -/
def step_callback (env : List (String × ScopeVal)) (s : ManagerState)
    (st : AgentStepState) (out : AgentOutput) : ManagerState :=
  stepReportBlock env (stepAggregate s st out)

/-! ## handle_submit (lines 1015-1059) and run_vayner_research (lines 498-1013) -/

/-- Outcome of the pre-task initialization done inside
`run_vayner_research`: the LLM construction at lines 578-586 runs before the
`try:` (a failure propagates), the browser/agent construction at lines
905-949 runs inside it (a failure is caught at line 999); either way no
background task is created. -/
inductive InitEnv where
  | ok
  | llmInitError
  | browserInitError
deriving DecidableEq

/-- Result of a submit: the guard warning, an initialization failure, or a
started background task. -/
inductive SubmitResult where
  | warned (s : ManagerState)
  | initFailed (s : ManagerState)
  | started (s : ManagerState)
deriving DecidableEq

/-- Whether a submit created a background task. -/
def submitStartsTask : SubmitResult → Bool
  | .started _ => true
  | _ => false

/-- The session state of a submit outcome. -/
def submitState : SubmitResult → ManagerState
  | .warned s => s
  | .initFailed s => s
  | .started s => s

/-- `handle_submit` (lines 1015-1059) composed with the task-creating part
of `run_vayner_research` (lines 951-954). The only guard is the empty
business name (line 1017); otherwise the per-run collections are reset, the
initial placeholder report is rendered with empty facts
(`generate_live_report(business_name.strip(), [], [], [], [], [])`), the
update queue is re-initialized, and — when initialization succeeds — a new
`asyncio.Task` is created and stored in `vayner_current_task`, with the
agent handle set beforehand (lines 934-949). No check of
`vayner_current_task` is performed anywhere on this path. -/
def handle_submit (s : ManagerState) (business_name : String) (env : InitEnv) :
    SubmitResult :=
  if pyStrip business_name == "" then .warned s
  else
    let s1 := { s with
      vayner_current_business := pyStrip business_name
      vayner_screenshots := []
      vayner_business_info := []
      vayner_keyword_data := []
      vayner_ranking_data := []
      vayner_keyword_table_rows := []
      vayner_pdf_report :=
        some (generate_live_report (pyStrip business_name) [] [] [] [] (some []) none)
      update_queue := [] }
    match env with
    | .llmInitError => .initFailed s1
    | .browserInitError => .initFailed s1
    | .ok => .started { s1 with
        vayner_agent := some ()
        vayner_current_task := some { taskDone := false } }

/-! ## The update queue (push at line 701, drain at lines 1055-1057) -/

/-- `webui_manager.update_queue.append(fragment)`. -/
def pushFragment (q : List UpdateFragment) (f : UpdateFragment) :
    List UpdateFragment :=
  q ++ [f]

/-- The drain loop of handle_submit
(`while webui_manager.update_queue: pdf_updates = update_queue.pop(0); ...`):
returns the fragments in the order popped together with the queue left
behind; it inspects only the list, so it never blocks or fails. -/
def drainAll : List UpdateFragment → List UpdateFragment × List UpdateFragment
  | [] => ([], [])
  | f :: rest =>
    let r := drainAll rest
    (f :: r.1, r.2)

/-! ## handle_stop (lines 1061-1094) -/

/-- Outcome of `await asyncio.wait_for(task, timeout=2.0)` at line 1082: the
bounded wait either returns, raises `CancelledError`, raises `TimeoutError`
(the 2-second bound), or raises some other exception — the `except` clause
at line 1083 lists all of them and does nothing. -/
inductive AwaitOutcome where
  | completed
  | cancelledError
  | timeoutError
  | otherError
deriving DecidableEq

/-- What a stop click yields: the control-reset fragment (run button
re-enabled, stop button disabled, lines 1089-1092) or the empty update
(line 1094). -/
inductive StopYield where
  | controls (runInteractive stopInteractive : Bool)
  | emptyUpdate
deriving DecidableEq

/-- `handle_stop` (lines 1061-1094): when an agent and a live task exist,
try `agent.stop()` (any exception is caught and logged, lines 1070-1078),
cancel the task handle, await its termination with the bounded 2-second
wait swallowing every outcome (lines 1081-1084), then yield the
control-reset fragment. Otherwise yield the empty update. -/
def handle_stop (s : ManagerState) (stopRaises : Bool) (aw : AwaitOutcome) :
    StopYield :=
  match s.vayner_agent, s.vayner_current_task with
  | some _, some t =>
    if t.taskDone then .emptyUpdate
    else
      -- agent.stop() attempt: both outcomes fall through (except at 1077)
      let _ := stopRaises
      -- task.cancel(); await wait_for(...): every outcome falls through
      let _ := aw
      .controls true false
  | _, _ => .emptyUpdate

/-! ## Support definitions for the statements below -/

/-- Concatenation of a list of strings (used to state the shape of the
rendered keyword table). -/
def strConcat : List String → String
  | [] => ""
  | s :: rest => s ++ strConcat rest

/-- A session holding a live (running) background task, as left behind by a
successful submit: agent handle set, task not done. -/
def runningSession : ManagerState :=
  { registry := emptyRegistry
    vayner_current_business := "Old Business"
    vayner_screenshots := []
    vayner_business_info := []
    vayner_keyword_data := []
    vayner_ranking_data := []
    vayner_keyword_table_rows := []
    vayner_pdf_report := none
    update_queue := []
    vayner_agent := some ()
    vayner_current_task := some { taskDone := false } }

/-- A fresh session right after the reset performed by handle_submit. -/
def freshSession : ManagerState :=
  { registry := emptyRegistry
    vayner_current_business := "Acme Dental"
    vayner_screenshots := []
    vayner_business_info := []
    vayner_keyword_data := []
    vayner_ranking_data := []
    vayner_keyword_table_rows := []
    vayner_pdf_report := none
    update_queue := []
    vayner_agent := some ()
    vayner_current_task := some { taskDone := false } }

/-- A step whose only action carries the spec's example row in its thought. -/
def sampleStepOutput : AgentOutput :=
  ⟨[{ thought := some "keyword: Teeth Whitening, performance: 88, sov: 2"
      result := none }]⟩

/-- A step state carrying no screenshot, url or page text. -/
def sampleStepState : AgentStepState := ⟨none, none, none⟩

/-! # Theorems -/

/-! ## Shared helper lemmas -/

/-- Appending a row whose key is fresh preserves uniqueness. -/
theorem uniqueRowsB_append_fresh (rows : List KeywordRow) (r : KeywordRow)
    (hu : uniqueRowsB rows = true)
    (hf : rows.any (fun row => pyLower row.keyword == pyLower r.keyword) = false) :
    uniqueRowsB (rows ++ [r]) = true := by
  induction rows with
  | nil => simp [uniqueRowsB]
  | cons x t ih =>
    simp only [uniqueRowsB, Bool.and_eq_true, Bool.not_eq_true'] at hu
    simp only [List.any_cons, Bool.or_eq_false_iff] at hf
    simp only [List.cons_append, uniqueRowsB, Bool.and_eq_true, Bool.not_eq_true']
    refine ⟨?_, ih hu.2 hf.2⟩
    show ((t ++ [r]).any fun y => pyLower y.keyword == pyLower x.keyword) = false
    rw [List.any_append]
    have hx : pyLower x.keyword ≠ pyLower r.keyword := by
      simpa [beq_eq_false_iff_ne] using hf.1
    simp [hu.1, List.any_cons, beq_eq_false_iff_ne, Ne.symm hx]

/-- `addKeywordRow` preserves the uniqueness invariant. -/
theorem uniqueRowsB_addKeywordRow (rows : List KeywordRow) (r : KeywordRow)
    (hu : uniqueRowsB rows = true) :
    uniqueRowsB (addKeywordRow rows r) = true := by
  unfold addKeywordRow
  by_cases h : rows.any (fun row => pyLower row.keyword == pyLower r.keyword) = true
  · simpa [h] using hu
  · have h' : rows.any (fun row => pyLower row.keyword == pyLower r.keyword) = false := by
      simpa using h
    simpa [h'] using uniqueRowsB_append_fresh rows r hu h'

/-- Any fold of `addKeywordRow` from a unique state stays unique. -/
theorem uniqueRowsB_foldl_addKeywordRow (inserts : List KeywordRow) :
    ∀ rows : List KeywordRow, uniqueRowsB rows = true →
      uniqueRowsB (inserts.foldl addKeywordRow rows) = true := by
  induction inserts with
  | nil => intro rows hu; simpa using hu
  | cons r t ih =>
    intro rows hu
    exact ih _ (uniqueRowsB_addKeywordRow rows r hu)

/-- Draining never blocks: it returns the whole queue in order and leaves it
empty. -/
theorem drainAll_eq (q : List UpdateFragment) : drainAll q = (q, []) := by
  induction q with
  | nil => rfl
  | cons f rest ih => simp [drainAll, ih]

/-- A fold of `pushFragment` appends the pushed fragments in order. -/
theorem foldl_pushFragment (l : List UpdateFragment) :
    ∀ acc : List UpdateFragment, l.foldl pushFragment acc = acc ++ l := by
  induction l with
  | nil => intro acc; simp
  | cons f t ih => intro acc; simp [pushFragment, ih, List.append_assoc]

/-! ## C5 — KeywordRow uniqueness, first-seen wins -/

/-- C5: the KeywordRow collection stays unique by case-insensitive keyword
after every sequence of insertions (all four insertion sites go through
`addKeywordRow`, and every run starts from the empty list reset by
handle_submit), and first-seen wins: inserting `{"Dentist","12","3"}` then
`{"dentist","99","1"}` leaves exactly the first row, performance `"12"`. -/
theorem c5_keyword_rows_unique_first_seen :
    (∀ inserts : List KeywordRow,
      uniqueRowsB (inserts.foldl addKeywordRow []) = true)
    ∧ addKeywordRow (addKeywordRow [] ⟨"Dentist", "12", "3"⟩)
        ⟨"dentist", "99", "1"⟩ = [⟨"Dentist", "12", "3"⟩] := by
  refine ⟨fun inserts => uniqueRowsB_foldl_addKeywordRow inserts [] rfl, ?_⟩
  decide

/-! ## C6 — update queue FIFO drain -/

/-- C6: a full drain of the update queue returns the pushed fragments in
push (FIFO) order and leaves the queue empty, so a second drain right after
returns the empty sequence, and draining an empty queue yields the empty
sequence (the drain loop only inspects the list — it cannot block or fail). -/
theorem c6_update_queue_fifo_drain :
    (∀ pushes : List UpdateFragment,
      drainAll (pushes.foldl pushFragment []) = (pushes, []))
    ∧ (∀ q : List UpdateFragment, drainAll (drainAll q).2 = ([], []))
    ∧ drainAll [] = ([], []) := by
  refine ⟨fun pushes => ?_, fun q => ?_, rfl⟩
  · rw [foldl_pushFragment pushes []]
    simpa using drainAll_eq pushes
  · rw [drainAll_eq q]
    rfl

/-! ## Registry helper lemmas -/

/-- Setting a key then reading it back yields the new value, whether or not
the key existed. -/
theorem dictGet_dictSet_self {α β : Type} [DecidableEq α] (m : List (α × β)) (k : α) (v : β) :
    dictGet (dictSet m k v) k = some v := by
  induction m with
  | nil => simp [dictSet, dictGet]
  | cons p t ih =>
    unfold dictSet at ih ⊢
    by_cases hmem : ((p :: t).any fun q => decide (q.1 = k)) = true
    · rw [if_pos hmem]
      by_cases hp : p.1 = k
      · simp [dictGet, hp]
      · by_cases ht : (t.any fun q => decide (q.1 = k)) = true
        · rw [if_pos ht] at ih
          simp only [List.map_cons, if_neg hp, dictGet, hp, ite_false]
          exact ih
        · exfalso
          simp [List.any_cons, hp, ht] at hmem
    · rw [if_neg hmem]
      have hp : ¬ p.1 = k := by
        intro h; exact hmem (by simp [List.any_cons, h])
      have ht : ¬ (t.any fun q => decide (q.1 = k)) = true := by
        intro h; exact hmem (by simp [List.any_cons, h])
      rw [if_neg ht] at ih
      simpa [dictGet, hp] using ih

/-- Setting a fresh key appends the pair. -/
theorem dictSet_of_key_not_mem {α β : Type} [DecidableEq α] (m : List (α × β)) (k : α) (v : β)
    (h : ∀ p ∈ m, p.1 ≠ k) : dictSet m k v = m ++ [(k, v)] := by
  unfold dictSet
  rw [if_neg]
  simp only [List.any_eq_true, decide_eq_true_eq, not_exists, not_and]
  intro p hp
  exact h p hp

/-- `add_components` is the fold of `addComponentPair` over the composed
pairs. -/
theorem add_components_eq_foldPairs (r : Registry) (tab : String)
    (cs : List (String × Handle)) :
    add_components r tab cs
      = (cs.map (fun c => (tab ++ "." ++ c.1, c.2))).foldl addComponentPair r := by
  rw [List.foldl_map]
  rfl

/-- A sequence of `add_components` calls is the fold over their composed
pairs. -/
theorem applyOps_foldl_eq (ops : List (String × List (String × Handle))) :
    ∀ r : Registry,
      ops.foldl (fun r op => add_components r op.1 op.2) r
        = (pairsOfOps ops).foldl addComponentPair r := by
  induction ops with
  | nil => intro r; rfl
  | cons op rest ih =>
    intro r
    simp only [List.foldl_cons, pairsOfOps, List.foldl_append]
    rw [ih, add_components_eq_foldPairs]

/-- With pairwise-distinct ids and handles the fold builds exactly the pair
list and its swap. -/
theorem foldPairs_structure : ∀ (ps qs : List (String × Handle)),
    ((qs ++ ps).map Prod.fst).Nodup → ((qs ++ ps).map Prod.snd).Nodup →
    ps.foldl addComponentPair ⟨qs, qs.map Prod.swap⟩
      = ⟨qs ++ ps, (qs ++ ps).map Prod.swap⟩ := by
  intro ps
  induction ps with
  | nil => intro qs _ _; simp
  | cons p ps ih =>
    obtain ⟨pid, ph⟩ := p
    intro qs hfst hsnd
    have hidnot : pid ∉ qs.map Prod.fst := by
      rw [List.map_append] at hfst
      rcases List.nodup_append.mp hfst with ⟨_, _, hdisj⟩
      intro hmem
      exact hdisj hmem (by simp)
    have hhnot : ph ∉ qs.map Prod.snd := by
      rw [List.map_append] at hsnd
      rcases List.nodup_append.mp hsnd with ⟨_, _, hdisj⟩
      intro hmem
      exact hdisj hmem (by simp)
    have hstep : addComponentPair ⟨qs, qs.map Prod.swap⟩ (pid, ph)
        = ⟨qs ++ [(pid, ph)], (qs ++ [(pid, ph)]).map Prod.swap⟩ := by
      unfold addComponentPair
      congr 1
      · exact dictSet_of_key_not_mem qs pid ph
          (fun q hq he => hidnot (he ▸ List.mem_map_of_mem Prod.fst hq))
      · rw [dictSet_of_key_not_mem (qs.map Prod.swap) ph pid]
        · simp [Prod.swap]
        · rintro q hq he
          rcases List.mem_map.mp hq with ⟨q0, hq0, rfl⟩
          exact hhnot (he ▸ List.mem_map_of_mem Prod.snd hq0)
    rw [List.foldl_cons, hstep, ih (qs ++ [(pid, ph)])]
    · simp
    · simpa using hfst
    · simpa using hsnd

/-- A successful lookup comes from an entry of the list. -/
theorem mem_of_dictGet_eq_some {α β : Type} [DecidableEq α] :
    ∀ (m : List (α × β)) (k : α) (v : β), dictGet m k = some v → (k, v) ∈ m := by
  intro m
  induction m with
  | nil => intro k v h; simp [dictGet] at h
  | cons p t ih =>
    obtain ⟨pa, pb⟩ := p
    intro k v h
    unfold dictGet at h
    by_cases hp : pa = k
    · rw [if_pos hp] at h
      injection h with hv
      rw [← hp, ← hv]
      exact List.mem_cons_self _ _
    · rw [if_neg hp] at h
      exact List.mem_cons_of_mem _ (ih k v h)

/-- With distinct keys, every entry is found by lookup. -/
theorem dictGet_eq_some_of_mem {α β : Type} [DecidableEq α] :
    ∀ (m : List (α × β)) (k : α) (v : β), (m.map Prod.fst).Nodup → (k, v) ∈ m →
      dictGet m k = some v := by
  intro m
  induction m with
  | nil => intro k v _ h; simp at h
  | cons p t ih =>
    intro k v hnd hmem
    simp only [List.map_cons, List.nodup_cons] at hnd
    unfold dictGet
    rcases List.mem_cons.mp hmem with heq | htail
    · rw [← heq]
      simp
    · have hp : p.1 ≠ k := by
        intro he
        have hk : k ∈ t.map Prod.fst := by
          simpa using List.mem_map_of_mem Prod.fst htail
        exact (he ▸ hnd.1) hk
      rw [if_neg hp]
      exact ih k v hnd.2 htail


/-! ## C7 — registration and DuplicateSlotError -/

/-- C7 counterexample: registering `("t", {"f": handle 2})` while `"t.f"` is
already bound to handle 1 does not fail — `add_components` raises nothing
(no `DuplicateSlotError` exists anywhere in the repository) and silently
replaces the forward entry. -/
theorem c7_counterexample_duplicate_id_replaced :
    get_component_by_id (add_components emptyRegistry "t" [("f", 1)]) "t.f" = some 1
    ∧ get_component_by_id
        (add_components (add_components emptyRegistry "t" [("f", 1)]) "t" [("f", 2)])
        "t.f" = some 2 := by decide

/-- C7 (amended): `add_components` stores each composed id
`"<tab>.<field>"` with its handle and the inverse entry; when the composed
id (or the handle) already exists its entry is silently overwritten — the
call is total and never raises. -/
theorem c7_register_stores_pair_and_inverse_overwrites
    (r : Registry) (tab_name comp_name : String) (h : Handle) :
    get_component_by_id (add_components r tab_name [(comp_name, h)])
        (tab_name ++ "." ++ comp_name) = some h
    ∧ get_id_by_component (add_components r tab_name [(comp_name, h)]) h
        = some (tab_name ++ "." ++ comp_name) := by
  constructor
  · exact dictGet_dictSet_self _ _ _
  · exact dictGet_dictSet_self _ _ _

/-- C8 counterexample: after registering handle 1 and then handle 2 under
the same composed id `"t.f"`, both `reverse(1)` and `resolve("t.f")` are
defined, yet `resolve(reverse(1)) = 2 ≠ 1` — the inverse law fails for this
sequence of register operations. -/
theorem c8_counterexample_inverse_law_fails :
    get_id_by_component
        (add_components (add_components emptyRegistry "t" [("f", 1)]) "t" [("f", 2)]) 1
      = some "t.f"
    ∧ get_component_by_id
        (add_components (add_components emptyRegistry "t" [("f", 1)]) "t" [("f", 2)])
        "t.f" = some 2
    ∧ (2 : Handle) ≠ 1 := by decide

/-- C8 (amended): provided all composed ids and all handles of the
registration history are pairwise distinct, the two registry maps are
mutual inverses wherever defined: `resolve(id) = handle` iff
`reverse(handle) = id`. -/
theorem c8_registry_mutual_inverse_when_distinct
    (ops : List (String × List (String × Handle)))
    (hids : ((pairsOfOps ops).map Prod.fst).Nodup)
    (hhandles : ((pairsOfOps ops).map Prod.snd).Nodup) :
    ∀ (comp_id : String) (h : Handle),
      (get_component_by_id (applyOps ops) comp_id = some h →
        get_id_by_component (applyOps ops) h = some comp_id)
      ∧ (get_id_by_component (applyOps ops) h = some comp_id →
        get_component_by_id (applyOps ops) comp_id = some h) := by
  have hreg : applyOps ops = ⟨pairsOfOps ops, (pairsOfOps ops).map Prod.swap⟩ := by
    rw [show applyOps ops = (pairsOfOps ops).foldl addComponentPair emptyRegistry from
      applyOps_foldl_eq ops emptyRegistry]
    have h0 := foldPairs_structure (pairsOfOps ops) []
      (by simpa using hids) (by simpa using hhandles)
    simpa [emptyRegistry] using h0
  have hcompswap : (Prod.fst ∘ (Prod.swap : String × Handle → Handle × String))
      = Prod.snd := funext fun p => rfl
  have hsndkeys : (((pairsOfOps ops).map Prod.swap).map Prod.fst).Nodup := by
    rw [List.map_map, hcompswap]
    exact hhandles
  intro comp_id h
  constructor
  · intro hres
    rw [hreg] at hres ⊢
    have hm : (comp_id, h) ∈ pairsOfOps ops := mem_of_dictGet_eq_some _ _ _ hres
    have hm' : (h, comp_id) ∈ (pairsOfOps ops).map Prod.swap :=
      List.mem_map_of_mem Prod.swap hm
    exact dictGet_eq_some_of_mem _ _ _ hsndkeys hm'
  · intro hres
    rw [hreg] at hres ⊢
    have hm' : (h, comp_id) ∈ (pairsOfOps ops).map Prod.swap :=
      mem_of_dictGet_eq_some _ _ _ hres
    rcases List.mem_map.mp hm' with ⟨q, hq, he⟩
    have hqe : q = (comp_id, h) := by
      have h2 := congrArg Prod.swap he
      simpa [Prod.swap_swap] using h2
    exact dictGet_eq_some_of_mem _ _ _ hids (hqe ▸ hq)

/-- Witness for C8 at a concrete two-tab registration history. -/
theorem c8_registry_mutual_inverse_witness :
    get_id_by_component (applyOps [("tabA", [("x", 1)]), ("tabB", [("y", 2)])]) 1
      = some "tabA.x" :=
  (c8_registry_mutual_inverse_when_distinct _ (by decide) (by decide) "tabA.x" 1).1
    (by decide)

/-! ## C1, C3, C4, C9, C10 -/

/-- String-building loops (`html += piece`) concatenate the mapped pieces. -/
theorem foldl_append_strConcat {γ : Type} (f : γ → String) (l : List γ) :
    ∀ acc : String, l.foldl (fun h x => h ++ f x) acc = acc ++ strConcat (l.map f) := by
  induction l with
  | nil => intro acc; simp [strConcat, String.append_empty]
  | cons x t ih => intro acc; simp [strConcat, ih, String.append_assoc]

/-- C3 (amended): the keyword table section of `generate_live_report` is
exactly the fixed header, one verbatim `keywordRowHtml` per KeywordRow in
insertion order, and the fixed footer (empty when the row list is empty);
no Average row and no arithmetic mean are ever computed by the renderer —
the averaging mentioned in the spec lives only in the task prompt text
(`VAYNER_CLIENT_TEMPLATE`), which asks the remote agent to include such a
row in its own output table. -/
theorem c3_keyword_table_renders_rows_verbatim (rows : List KeywordRow) :
    keywordTableSection rows =
      if rows.isEmpty then ""
      else kwTableOpen ++ strConcat (rows.map keywordRowHtml) ++ kwTableClose := by
  unfold keywordTableSection
  by_cases h : rows.isEmpty
  · simp [h]
  · simp only [h, if_neg, Bool.false_eq_true, ite_false]
    rw [foldl_append_strConcat keywordRowHtml rows ""]
    rw [String.empty_append]

/-- C3 counterexample: rendering the spec's example rows
`{"a","10","2"}, {"b","20","4"}` produces a non-empty keyword table that
contains no "Average" row at all — in particular no Average row with
performance 15 and shareOfVoice 3. -/
theorem c3_counterexample_no_average_row :
    containsSub (keywordTableSection [⟨"a", "10", "2"⟩, ⟨"b", "20", "4"⟩]) "Average" = false
    ∧ keywordTableSection [⟨"a", "10", "2"⟩, ⟨"b", "20", "4"⟩] ≠ "" := by decide

/-- C4 counterexample: in a final result whose header row is immediately
followed by data rows (no separator row), the extraction drops the first
data row `| a | 10 | 2 |` — the line right after the header is skipped
unconditionally — so only the `b` row is extracted, although the header
matched. -/
theorem c4_counterexample_row_after_header_dropped :
    headerRegexAccept "| keyword | performance | sov |" = true
    ∧ done_callback_rows
        (some (.pstr "| keyword | performance | sov |\n| a | 10 | 2 |\n| b | 20 | 4 |")) []
      = [⟨"b", "20", "4"⟩] := by decide

/-- C4 (amended): the tabular pass of done_callback requires at least two
lines after the matched header and treats the line immediately after the
header as a separator, skipping it whether or not it is one: the extraction
result never depends on that line, and when only one line follows the
header nothing is extracted. Each remaining line starting with `|` that
splits into at least three non-empty cells yields one candidate KeywordRow
subject to the dedup rule. -/
theorem c4_table_pass_skips_line_after_header
    (hline d1 : String) (ds : List String) (rows : List KeywordRow)
    (hheader : headerRegexAccept hline = true) :
    parseFinalResultTable (hline :: d1 :: ds) rows =
      if ds.isEmpty then rows else ds.foldl tableRowStep rows := by
  unfold parseFinalResultTable firstIdxWhere
  rw [if_pos hheader]
  cases ds with
  | nil => simp
  | cons x t => simp [List.drop]

/-- Witness for C4 (amended) at a concrete table with a separator row. -/
theorem c4_table_pass_witness :
    headerRegexAccept "|keyword|performance|sov|" = true
    ∧ parseFinalResultTable ["|keyword|performance|sov|", "|---|---|---|", "| x | 5 | 6 |"] []
      = [⟨"x", "5", "6"⟩] :=
  ⟨by decide,
   (c4_table_pass_skips_line_after_header "|keyword|performance|sov|" "|---|---|---|"
      ["| x | 5 | 6 |"] [] (by decide)).trans (by decide)⟩

/-- C10: `generate_live_report` never reads `business_info`,
`keyword_data`, `ranking_data` or `screenshots` — two calls agreeing on
`business_name`, `keyword_table_rows` and `final_result` return identical
documents whatever those four collections hold; and an absent
`keyword_table_rows` is replaced by the empty list (the function is total,
so the call cannot raise). -/
theorem c10_report_ignores_note_collections
    (business_name : String)
    (business_info keyword_data ranking_data screenshots
      business_info2 keyword_data2 ranking_data2 screenshots2 : List String)
    (keyword_table_rows : Option (List KeywordRow)) (final_result : Option PyValue) :
    generate_live_report business_name business_info keyword_data ranking_data
        screenshots keyword_table_rows final_result
      = generate_live_report business_name business_info2 keyword_data2 ranking_data2
        screenshots2 keyword_table_rows final_result
    ∧ generate_live_report business_name business_info keyword_data ranking_data
        screenshots none final_result
      = generate_live_report business_name business_info keyword_data ranking_data
        screenshots (some []) final_result :=
  ⟨rfl, rfl⟩

/-- C1 counterexample: on a session whose `vayner_current_task` is a live
running task, `handle_submit` with a non-empty business name still starts a
new background task — the submit path checks only the business name, never
the task. -/
theorem c1_counterexample_submit_starts_second_task :
    taskIsRunning runningSession = true
    ∧ submitStartsTask (handle_submit runningSession "Acme Dental" .ok) = true :=
  ⟨rfl, rfl⟩

/-- C1 (amended): `handle_submit` refuses a submission only when the
stripped business name is empty; when the name is non-empty and
initialization succeeds, a new background task is started regardless of the
running task already held by the session — the single-task invariant is not
enforced anywhere on the submit path. -/
theorem c1_submit_guard_ignores_running_task (s : ManagerState)
    (business_name : String) (env : InitEnv)
    (hrun : taskIsRunning s = true)
    (hname : pyStrip business_name ≠ "")
    (henv : env = InitEnv.ok) :
    submitStartsTask (handle_submit s business_name env) = true := by
  subst henv
  unfold handle_submit
  rw [if_neg (show ¬ ((pyStrip business_name == "") = true) by simpa using hname)]
  rfl

/-- Witness for C1 (amended) on a session with a live task. -/
theorem c1_submit_guard_ignores_running_task_witness :
    submitStartsTask (handle_submit runningSession "Acme Dental" InitEnv.ok) = true :=
  c1_submit_guard_ignores_running_task runningSession "Acme Dental" InitEnv.ok
    rfl (by decide) rfl

/-- C9: on a session holding an agent and a live (not done) task, a stop
click always yields the Idle-ready control fragment — run button
re-enabled, stop button disabled — for every outcome of the `agent.stop()`
attempt (which may raise; caught at line 1077) and every outcome of the
bounded 2-second `asyncio.wait_for` (return, CancelledError, TimeoutError
or any other exception; all listed and swallowed at lines 1083-1084).
No error ever reaches the caller. -/
theorem c9_stop_always_resets_controls (s : ManagerState) (stopRaises : Bool)
    (aw : AwaitOutcome) (hagent : s.vayner_agent.isSome = true)
    (hrun : taskIsRunning s = true) :
    handle_stop s stopRaises aw = .controls true false := by
  unfold handle_stop
  unfold taskIsRunning at hrun
  cases ha : s.vayner_agent with
  | none => rw [ha] at hagent; simp at hagent
  | some a =>
    cases ht : s.vayner_current_task with
    | none => rw [ht] at hrun; simp at hrun
    | some t =>
      rw [ht] at hrun
      simp only [Bool.not_eq_true'] at hrun
      simp [hrun]

/-- Witness for C9: a timed-out stop still resets the controls. -/
theorem c9_stop_always_resets_controls_witness :
    handle_stop runningSession true AwaitOutcome.timeoutError
      = StopYield.controls true false :=
  c9_stop_always_resets_controls runningSession true AwaitOutcome.timeoutError rfl rfl

/-! ## C2 — the step callback never reaches its report update -/

/-- A fold of state steps that each preserve the queue and the report
preserves both. -/
theorem foldl_keeps_queue_report {γ : Type} (f : ManagerState → γ → ManagerState)
    (hf : ∀ s a, (f s a).update_queue = s.update_queue
      ∧ (f s a).vayner_pdf_report = s.vayner_pdf_report) :
    ∀ (l : List γ) (s : ManagerState),
      (l.foldl f s).update_queue = s.update_queue
      ∧ (l.foldl f s).vayner_pdf_report = s.vayner_pdf_report := by
  intro l
  induction l with
  | nil => intro s; exact ⟨rfl, rfl⟩
  | cons a t ih =>
    intro s
    have h1 := hf s a
    have h2 := ih (f s a)
    exact ⟨h2.1.trans h1.1, h2.2.trans h1.2⟩

/-- The screenshot block touches neither the queue nor the report. -/
theorem screenshotStep_keeps (s : ManagerState) (sc : Option String) :
    (screenshotStep s sc).update_queue = s.update_queue
    ∧ (screenshotStep s sc).vayner_pdf_report = s.vayner_pdf_report := by
  cases sc with
  | none => exact ⟨rfl, rfl⟩
  | some x =>
    simp only [screenshotStep]
    split_ifs <;> exact ⟨rfl, rfl⟩

/-- Thought-bucket classification touches neither the queue nor the
report. -/
theorem thoughtFactStep_keeps (s : ManagerState) (th : String) :
    (thoughtFactStep s th).update_queue = s.update_queue
    ∧ (thoughtFactStep s th).vayner_pdf_report = s.vayner_pdf_report := by
  simp only [thoughtFactStep]
  split_ifs <;> exact ⟨rfl, rfl⟩

/-- Result-bucket classification touches neither the queue nor the
report. -/
theorem resultFactStep_keeps (s : ManagerState) (r : String) :
    (resultFactStep s r).update_queue = s.update_queue
    ∧ (resultFactStep s r).vayner_pdf_report = s.vayner_pdf_report := by
  simp only [resultFactStep]
  split_ifs <;> exact ⟨rfl, rfl⟩

/-- The gated thought block touches neither the queue nor the report. -/
theorem thoughtPartStep_keeps (s : ManagerState) (th : Option String) :
    (thoughtPartStep s th).update_queue = s.update_queue
    ∧ (thoughtPartStep s th).vayner_pdf_report = s.vayner_pdf_report := by
  cases th with
  | none => exact ⟨rfl, rfl⟩
  | some t =>
    simp only [thoughtPartStep]
    by_cases hT : (t == "") = true
    · simp [hT]
    · simp only [if_neg hT]; exact thoughtFactStep_keeps s t

/-- The gated result block touches neither the queue nor the report. -/
theorem resultPartStep_keeps (s : ManagerState) (r : Option String) :
    (resultPartStep s r).update_queue = s.update_queue
    ∧ (resultPartStep s r).vayner_pdf_report = s.vayner_pdf_report := by
  cases r with
  | none => exact ⟨rfl, rfl⟩
  | some t =>
    simp only [resultPartStep]
    by_cases hT : (t == "") = true
    · simp [hT]
    · simp only [if_neg hT]; exact resultFactStep_keeps s t

/-- Per-action fact extraction touches neither the queue nor the
report. -/
theorem actionFactStep_keeps (s : ManagerState) (a : AgentAction) :
    (actionFactStep s a).update_queue = s.update_queue
    ∧ (actionFactStep s a).vayner_pdf_report = s.vayner_pdf_report := by
  unfold actionFactStep
  have h1 := thoughtPartStep_keeps s a.thought
  have h2 := resultPartStep_keeps (thoughtPartStep s a.thought) a.result
  exact ⟨h2.1.trans h1.1, h2.2.trans h1.2⟩

/-- The page-URL block touches neither the queue nor the report. -/
theorem urlFactStep_keeps (s : ManagerState) (u : Option String) :
    (urlFactStep s u).update_queue = s.update_queue
    ∧ (urlFactStep s u).vayner_pdf_report = s.vayner_pdf_report := by
  cases u with
  | none => exact ⟨rfl, rfl⟩
  | some x =>
    simp only [urlFactStep]
    split_ifs <;> exact ⟨rfl, rfl⟩

/-- The visible-text block touches neither the queue nor the report. -/
theorem textContentFactStep_keeps (s : ManagerState) (tc : Option String) :
    (textContentFactStep s tc).update_queue = s.update_queue
    ∧ (textContentFactStep s tc).vayner_pdf_report = s.vayner_pdf_report := by
  cases tc with
  | none => exact ⟨rfl, rfl⟩
  | some x =>
    simp only [textContentFactStep]
    split_ifs <;> exact ⟨rfl, rfl⟩

/-- The whole aggregation phase of step_callback touches neither the
queue nor the report. -/
theorem stepAggregate_keeps (s : ManagerState) (st : AgentStepState)
    (out : AgentOutput) :
    (stepAggregate s st out).update_queue = s.update_queue
    ∧ (stepAggregate s st out).vayner_pdf_report = s.vayner_pdf_report := by
  unfold stepAggregate
  have h1 := screenshotStep_keeps s st.screenshot
  have h2 := foldl_keeps_queue_report actionFactStep actionFactStep_keeps
    out.action (screenshotStep s st.screenshot)
  have h3 := urlFactStep_keeps
    (out.action.foldl actionFactStep (screenshotStep s st.screenshot)) st.url
  have h4 := textContentFactStep_keeps
    (urlFactStep (out.action.foldl actionFactStep (screenshotStep s st.screenshot)) st.url)
    st.text_content
  exact ⟨((h4.1.trans h3.1).trans h2.1).trans h1.1,
         ((h4.2.trans h3.2).trans h2.2).trans h1.2⟩

/-- In any environment whose names all come from step_callback's scope
chain, the name `history` does not resolve (it is bound nowhere in that
chain), so evaluating `history.final_result()` raises NameError. -/
theorem dictGet_history_none (env : List (String × ScopeVal))
    (henv : env.all (fun p => stepCallbackVisibleNames.contains p.1) = true) :
    dictGet env "history" = none := by
  induction env with
  | nil => rfl
  | cons p t ih =>
    simp only [List.all_cons, Bool.and_eq_true] at henv
    unfold dictGet
    have hp : p.1 ≠ "history" := by
      intro he
      have hc : stepCallbackVisibleNames.contains "history" = true := he ▸ henv.1
      exact absurd hc (by decide)
    rw [if_neg hp]
    exact ih henv.2

/-- C2: for every step, the step callback leaves `vayner_pdf_report` and
`update_queue` unchanged: the report-update block at lines 686-706 always
dies with a NameError on the free name `history` (defined only as
done_callback's parameter) before `generate_live_report` is called or the
fragment is pushed, and the `except` at line 708 swallows it. The claimed
per-step report regeneration and enqueue therefore never happen. -/
theorem c2_step_callback_never_updates_report_or_queue
    (env : List (String × ScopeVal)) (s : ManagerState)
    (st : AgentStepState) (out : AgentOutput)
    (henv : env.all (fun p => stepCallbackVisibleNames.contains p.1) = true) :
    (step_callback env s st out).update_queue = s.update_queue
    ∧ (step_callback env s st out).vayner_pdf_report = s.vayner_pdf_report := by
  unfold step_callback stepReportBlock
  rw [dictGet_history_none env henv]
  exact stepAggregate_keeps s st out

/-- Witness for C2 at the spec's example step: the row
`{Teeth Whitening, 88, 2}` is aggregated by the same invocation, yet the
queue and the report are untouched. -/
theorem c2_step_callback_witness :
    ((step_callback [("output", ScopeVal.otherVal), ("state", ScopeVal.otherVal)]
        freshSession sampleStepState sampleStepOutput).update_queue
      = freshSession.update_queue
    ∧ (step_callback [("output", ScopeVal.otherVal), ("state", ScopeVal.otherVal)]
        freshSession sampleStepState sampleStepOutput).vayner_pdf_report
      = freshSession.vayner_pdf_report)
    ∧ (step_callback [("output", ScopeVal.otherVal), ("state", ScopeVal.otherVal)]
        freshSession sampleStepState sampleStepOutput).vayner_keyword_table_rows
      = [⟨"Teeth Whitening", "88", "2"⟩] :=
  ⟨c2_step_callback_never_updates_report_or_queue _ _ _ _ (by decide), by decide⟩
